import Mathlib

/-!
# Verification of the write-collab document server

A shallow embedding of the server's document/session/persistence layer
(`server/src/index.ts`), its SSE fan-out module (`sse.ts`), its database
module (`db.ts`) and the client's restore handler (`client/src/main.ts`),
with theorems settling the specification's claims about restore,
snapshotting, session loading, title handling and notification fan-out.

Modelling conventions:
- Postgres rows become Lean structures; the `documents` and `versions`
  tables become lists of rows inside a `DB` structure.  `gen_random_uuid()`
  for version ids is modelled by a monotone counter `nextVid`.
- Timestamps (`NOW()`, `created_at`, `updated_at`) are integers (seconds).
- The Yjs engine is external: reconstructing a replica from stored update
  bytes (`Y.applyUpdate`) is a parameter `decode : List Nat → Option String`
  mapping the bytes to the replica's materialized text, `none` meaning the
  bytes are corrupt and `Y.applyUpdate` throws.
- JavaScript's `(x ?? '').toString().trim()` is modelled by `normalizeTitle`
  over an `Option String` (absent/null body field = `none`); `trim` removes
  leading and trailing whitespace characters.
- Each HTTP handler is a pure function from state to state plus an ordered
  trace of `Effect`s (database writes and SSE publishes) in the order the
  handler issues them.
-/

namespace WriteCollab

/-- JavaScript `String.prototype.trim` on the underlying character list:
drop whitespace from the front, then from the back. -/
def trimChars (l : List Char) : List Char :=
  ((l.dropWhile Char.isWhitespace).reverse.dropWhile Char.isWhitespace).reverse

/-- Model of `(x ?? '').toString().trim()` from the two title routes:
a missing/null title is coerced to the empty string, then trimmed. -/
def normalizeTitle (t : Option String) : String :=
  String.mk (trimChars (t.getD "").data)

/-- JavaScript string length as used by the `title.length > 512` check. -/
def strLen (s : String) : Nat := s.data.length

/-- One row of the `documents` table as the runtime queries use it
(`id, current_text, ystate, title, created_at, updated_at`).  `ystate` is
the nullable binary replica-state column (`NULL` = `none`). -/
structure DocRow where
  id : String
  current_text : String
  ystate : Option (List Nat)
  title : String
  created_at : Int
  updated_at : Int
deriving Repr, DecidableEq

/-- One row of the `versions` table (`id, document_id, text, created_at`). -/
structure VersionRow where
  vid : Nat
  document_id : String
  text : String
  created_at : Int
deriving Repr, DecidableEq

/-- The durable store: both tables plus the id counter modelling
`gen_random_uuid()` defaults for `versions.id`.  `versions` is append-only:
every insert appends at the tail, so list order is insertion order. -/
structure DB where
  documents : List DocRow
  versions : List VersionRow
  nextVid : Nat
deriving Repr, DecidableEq

/-- `SELECT ... FROM documents WHERE id = $1` (point read). -/
def findDoc (db : DB) (d : String) : Option DocRow :=
  db.documents.find? (fun r => r.id == d)

/-- `SELECT text FROM versions WHERE id = $1 AND document_id = $2`. -/
def findVersion (db : DB) (versionId : Nat) (d : String) : Option VersionRow :=
  db.versions.find? (fun v => v.vid == versionId && v.document_id == d)

/-- All versions rows belonging to one document. -/
def versionsFor (db : DB) (d : String) : List VersionRow :=
  db.versions.filter (fun v => v.document_id == d)

/-- The server process state: the durable store plus the live Hocuspocus
sessions, each holding a replica keyed by document name and modelled by its
materialized text. -/
structure SystemState where
  db : DB
  sessions : List (String × String)
deriving Repr, DecidableEq

/-- One observable side effect of an HTTP handler, in issue order. -/
inductive Effect where
  /-- `UPDATE documents SET current_text = _, ystate = _, updated_at = NOW()`. -/
  | dbWriteDoc (docId : String) (text : String) (ystate : Option (List Nat))
  /-- `UPDATE documents SET title = _, updated_at = NOW()`. -/
  | dbWriteTitle (docId : String) (title : String)
  /-- `INSERT INTO versions(document_id, text) VALUES (_, _)`. -/
  | dbAppendVersion (docId : String) (text : String)
  /-- `publish(docId, event, payload)` on the SSE fan-out. -/
  | ssePublish (docId : String) (event : String) (payloadText : String)
deriving Repr, DecidableEq

/-- `onLoadDocument` (index.ts lines 30-47): read the document row; if
absent, insert a fresh empty row (replica stays empty); else if `ystate` is
non-null and non-empty, reconstruct the replica via `Y.applyUpdate` (which
throws on corrupt bytes — there is no try/catch, so the error propagates as
`.error ()`); else if `current_text` is non-empty (JS truthiness), backfill
by inserting it into the fresh replica.  Returns the resulting store and
the replica's materialized text. -/
def onLoadDocument (decode : List Nat → Option String) (db : DB)
    (documentName : String) (now : Int) : Except Unit (DB × String) :=
  match findDoc db documentName with
  | none =>
      .ok ({ db with documents :=
              db.documents ++ [⟨documentName, "", none, "", now, now⟩] }, "")
  | some row =>
      match row.ystate with
      | some bs =>
          if bs.length > 0 then
            match decode bs with
            | some t => .ok (db, t)
            | none => .error ()
          else if row.current_text ≠ "" then .ok (db, row.current_text)
          else .ok (db, "")
      | none =>
          if row.current_text ≠ "" then .ok (db, row.current_text)
          else .ok (db, "")

/-- `WHERE NOT EXISTS (SELECT 1 FROM versions WHERE document_id = $1 AND
created_at > NOW() - INTERVAL '30 seconds')` — the snapshot debounce gate
of `onChange`. -/
def recentVersionExists (db : DB) (d : String) (now : Int) : Bool :=
  db.versions.any (fun v => v.document_id == d && decide (v.created_at > now - 30))

/-- `onChange` (index.ts lines 48-63): unconditionally write the current
text and serialized state into the document row, then insert a version
snapshot only if no version for this document was created within the
trailing 30 seconds. -/
def onChange (db : DB) (documentName : String) (text : String)
    (upd : List Nat) (now : Int) : DB :=
  let db1 : DB := { db with documents := db.documents.map (fun r =>
      if r.id == documentName then
        { r with current_text := text, ystate := some upd, updated_at := now }
      else r) }
  if recentVersionExists db1 documentName now then db1
  else { db1 with
          versions := db1.versions ++ [⟨db1.nextVid, documentName, text, now⟩],
          nextVid := db1.nextVid + 1 }

/-- A sequence of merge events on one document, each with its text, update
bytes and time, applied through `onChange` in order. -/
def applyEdits (db : DB) (d : String) (edits : List (String × List Nat × Int)) : DB :=
  edits.foldl (fun acc e => onChange acc d e.1 e.2.1 e.2.2) db

/-- `POST /admin/docs/:id/restore/:versionId` (index.ts lines 144-153):
look up the version (404 → `.error ()` with no side effects); otherwise
first overwrite the document row with the historical text and a NULL
`ystate`, then insert a new versions row holding that same restored text,
then publish a `restore` SSE event.  The handler never touches the live
Hocuspocus sessions. -/
def restoreVersion (st : SystemState) (id : String) (versionId : Nat)
    (now : Int) : Except Unit (SystemState × List Effect) :=
  match findVersion st.db versionId id with
  | none => .error ()
  | some v =>
      let text := v.text
      let db1 : DB := { st.db with documents := st.db.documents.map (fun r =>
          if r.id == id then
            { r with current_text := text, ystate := none, updated_at := now }
          else r) }
      let db2 : DB := { db1 with
          versions := db1.versions ++ [⟨db1.nextVid, id, text, now⟩],
          nextVid := db1.nextVid + 1 }
      .ok ({ db := db2, sessions := st.sessions },
           [.dbWriteDoc id text none, .dbAppendVersion id text,
            .ssePublish id "restore" text])

/-- The client's SSE `restore` listener (client/src/main.ts): on a restore
event, replace the editor's content with the payload text unless it already
matches. -/
def clientOnRestore (editorText payloadText : String) : String :=
  if editorText ≠ payloadText then payloadText else editorText

/-- `POST /admin/docs/:id/title` (index.ts lines 136-142): trim the posted
title (missing → empty string), write it with no length check, publish a
`title` event, in that order. -/
def adminSetTitle (db : DB) (id : String) (titleBody : Option String)
    (now : Int) : DB × List Effect :=
  let title := normalizeTitle titleBody
  ({ db with documents := db.documents.map (fun r =>
      if r.id == id then { r with title := title, updated_at := now } else r) },
   [.dbWriteTitle id title, .ssePublish id "title" title])

/-- Outcome of the JSON title route. -/
inductive ApiResult where
  | ok
  | badRequest
  | notFound
deriving Repr, DecidableEq

/-- `PATCH /api/documents/:id/title` (index.ts lines 164-172): trim the
body title; reject with 400 if the trimmed title is longer than 512
characters (before any read or write); 404 if the document row is absent;
otherwise write the title and publish a `title` event. -/
def apiSetTitle (db : DB) (id : String) (titleBody : Option String)
    (now : Int) : ApiResult × DB × List Effect :=
  let title := normalizeTitle titleBody
  if strLen title > 512 then (.badRequest, db, [])
  else
    match findDoc db id with
    | none => (.notFound, db, [])
    | some _ =>
        (.ok,
         { db with documents := db.documents.map (fun r =>
             if r.id == id then { r with title := title, updated_at := now }
             else r) },
         [.dbWriteTitle id title, .ssePublish id "title" title])

/-- One SSE subscriber: its identity and whether `res.write` succeeds for
it (a closed connection makes the write throw). -/
structure Sink where
  sid : Nat
  writeOk : Bool
deriving Repr, DecidableEq

/-- The `channels` map of sse.ts: document id to its registered sinks, in
registration order. -/
abbrev Channels : Type := List (String × List Sink)

/-- The wire payload `publish` writes to each sink. -/
def ssePayload (event dataJson : String) : String :=
  "event: " ++ event ++ "\n" ++ "data: " ++ dataJson ++ "\n\n"

/-- `channels.get(docId)`. -/
def channelsGet (ch : Channels) (docId : String) : Option (List Sink) :=
  (List.find? (fun p => p.1 == docId) ch).map (fun p => p.2)

/-- `subscribe` (sse.ts): add the sink to the document's set, creating the
entry when absent. -/
def subscribeSink (ch : Channels) (docId : String) (c : Sink) : Channels :=
  match List.find? (fun p => p.1 == docId) ch with
  | none => List.append ch [(docId, [c])]
  | some _ => List.map (fun p => if p.1 == docId then (p.1, p.2 ++ [c]) else p) ch

/-- The `res.on('close')` handler installed by `subscribe`: remove the sink
from its document's set and delete the whole entry once the set is empty. -/
def closeSink (ch : Channels) (docId : String) (sid : Nat) : Channels :=
  List.filterMap (fun p =>
    if p.1 == docId then
      let s := List.filter (fun c => c.sid ≠ sid) p.2
      if s.isEmpty then none else some (p.1, s)
    else some p) ch

/-- `publish` (sse.ts lines 34-42): no entry for the document means no
deliveries; otherwise iterate the document's sinks in order, writing the
payload to each, a throwing write being swallowed by `try/catch {}`.  The
result is the ordered delivery list (sink id, payload written) and the
channels map afterwards — which the function never modifies. -/
def publish (ch : Channels) (docId : String) (event : String)
    (dataJson : String) : List (Nat × String) × Channels :=
  match channelsGet ch docId with
  | none => ([], ch)
  | some set =>
      (set.filterMap (fun c =>
          if c.writeOk then some (c.sid, ssePayload event dataJson) else none),
       ch)

/-- Columns of `documents` created by `migrate()` in db.ts: the
`CREATE TABLE IF NOT EXISTS documents (...)` block followed by
`ALTER TABLE documents ADD COLUMN IF NOT EXISTS title` add exactly these. -/
def migrateDocumentsColumns : List String :=
  ["id", "created_at", "updated_at", "current_text", "title"]

/-- Columns of `versions` created by `migrate()` in db.ts. -/
def migrateVersionsColumns : List String :=
  ["id", "document_id", "created_at", "text"]

/-- Columns of `documents` that `onLoadDocument`'s
`SELECT current_text, ystate FROM documents` reads. -/
def onLoadDocumentSelectsColumns : List String :=
  ["current_text", "ystate"]

/-- Columns of `documents` that `onChange`'s
`UPDATE documents SET current_text = $2, ystate = $3, updated_at = NOW()`
writes. -/
def onChangeUpdatesColumns : List String :=
  ["current_text", "ystate", "updated_at"]

/-! ## Concrete fixtures used by the counterexamples and witnesses -/

/-- One document whose current (pre-restore) text is "hello", with one
stored version whose snapshot text is empty. -/
def exDb : DB := ⟨[⟨"d", "hello", none, "", 0, 0⟩], [⟨0, "d", "", 0⟩], 1⟩

/-- A running server over `exDb` with one live session whose replica holds
"abc". -/
def exSt : SystemState := ⟨exDb, [("d", "abc")]⟩

/-- A document whose stored replica state is present but corrupt. -/
def corruptDb : DB := ⟨[⟨"d", "hi", some [1, 2, 3], "", 0, 0⟩], [], 0⟩

/-- A document whose stored replica state is present but has zero bytes. -/
def emptyStateDb : DB := ⟨[⟨"d", "hi", some [], "", 0, 0⟩], [], 0⟩

/-- A document used by the title-route scenarios. -/
def titleDb : DB := ⟨[⟨"d", "", none, "old", 0, 0⟩], [], 0⟩

/-- The specification's example 600-character title. -/
def longTitle : String := String.mk (List.replicate 600 'a')

/-- Two documents with SSE subscribers; sink 0 of document "a" has a
failing connection. -/
def exCh : Channels := [("a", [⟨0, false⟩, ⟨1, true⟩]), ("b", [⟨2, true⟩])]

/-- A document with no stored versions, about to receive a burst of
edits. -/
def burstDb0 : DB := ⟨[⟨"d", "", none, "", 0, 0⟩], [], 0⟩

/-- A document whose latest (only) snapshot was taken at time 100. -/
def burstDb1 : DB := ⟨[⟨"d", "abc", none, "", 0, 0⟩], [⟨0, "d", "abc", 100⟩], 1⟩

/-! ## Helper lemmas -/

/-- Pointwise `UPDATE ... WHERE id = d` commutes with the point read
`SELECT ... WHERE id = d`, for any row transformer that keeps the key. -/
theorem find?_map_ite (l : List DocRow) (d : String) (f : DocRow → DocRow)
    (hf : ∀ r, (f r).id = r.id) :
    (l.map (fun r => if r.id == d then f r else r)).find? (fun r => r.id == d)
      = (l.find? (fun r => r.id == d)).map f := by
  induction l with
  | nil => rfl
  | cons a t ih =>
    simp only [List.map_cons]
    by_cases h : a.id = d
    · simp [h, hf]
    · simp [h, -List.find?_map]
      simpa [-List.find?_map] using ih

/-- Appending to a list cannot affect `find?` when no element of the prefix
matches. -/
theorem find?_append_of_forall_neg {α : Type} (p : α → Bool) (l1 l2 : List α)
    (h : ∀ x ∈ l1, ¬ p x = true) :
    (l1 ++ l2).find? p = l2.find? p := by
  induction l1 with
  | nil => rfl
  | cons a t ih =>
    rw [List.cons_append, List.find?_cons_of_neg _ (h a (by simp))]
    exact ih (fun x hx => h x (by simp [hx]))

/-- The snapshot gate only reads the `versions` table, so replacing the
`documents` table does not change it. -/
theorem recentVersionExists_docs (db : DB) (docs : List DocRow) (d : String)
    (now : Int) :
    recentVersionExists { db with documents := docs } d now
      = recentVersionExists db d now := rfl

/-- The `documents` table after `onChange`: the unconditional full-state
write, independent of the snapshot branch. -/
theorem onChange_documents_eq (db : DB) (d text : String) (u : List Nat)
    (now : Int) :
    (onChange db d text u now).documents
      = db.documents.map (fun r =>
          if r.id == d then
            { r with current_text := text, ystate := some u, updated_at := now }
          else r) := by
  unfold onChange
  dsimp only
  split <;> rfl

/-- The `versions` table after `onChange`: unchanged when a version exists
inside the trailing window, one appended snapshot otherwise. -/
theorem onChange_versions_eq (db : DB) (d text : String) (u : List Nat)
    (now : Int) :
    (onChange db d text u now).versions
      = if recentVersionExists db d now then db.versions
        else db.versions ++ [⟨db.nextVid, d, text, now⟩] := by
  unfold onChange
  dsimp only
  rw [recentVersionExists_docs]
  split <;> rfl

/-- A version for the document younger than 30 seconds makes the gate
fire. -/
theorem recentVersionExists_true_of_mem (db : DB) (d : String) (now : Int)
    (v : VersionRow) (hv : v ∈ db.versions) (hd : v.document_id = d)
    (ht : now < v.created_at + 30) :
    recentVersionExists db d now = true := by
  unfold recentVersionExists
  rw [List.any_eq_true]
  refine ⟨v, hv, ?_⟩
  simp only [Bool.and_eq_true, beq_iff_eq, decide_eq_true_eq]
  exact ⟨hd, by omega⟩

/-- When every version of the document is at least 30 seconds old, the
gate does not fire. -/
theorem recentVersionExists_false (db : DB) (d : String) (now : Int)
    (h : ∀ v ∈ db.versions, v.document_id = d → v.created_at ≤ now - 30) :
    recentVersionExists db d now = false := by
  unfold recentVersionExists
  rw [List.any_eq_false]
  intro v hv
  simp only [Bool.and_eq_true, beq_iff_eq, decide_eq_true_eq, not_and]
  intro hd
  have := h v hv hd
  omega

/-- An `onChange` within 30 seconds of an existing version of the same
document appends no snapshot. -/
theorem onChange_versions_suppressed (db : DB) (d text : String)
    (u : List Nat) (now : Int) (v : VersionRow) (hv : v ∈ db.versions)
    (hd : v.document_id = d) (ht : now < v.created_at + 30) :
    (onChange db d text u now).versions = db.versions := by
  rw [onChange_versions_eq,
    if_pos (recentVersionExists_true_of_mem db d now v hv hd ht)]

/-- A whole burst of edits within 30 seconds of an existing version of the
document appends no snapshot. -/
theorem applyEdits_versions_suppressed (d : String) (v : VersionRow)
    (hd : v.document_id = d) :
    ∀ (edits : List (String × List Nat × Int)),
      (∀ e ∈ edits, e.2.2 < v.created_at + 30) →
      ∀ db : DB, v ∈ db.versions →
        (applyEdits db d edits).versions = db.versions := by
  intro edits
  induction edits with
  | nil => intro _ db _; rfl
  | cons e rest ih =>
    intro hall db hv
    have h1 : (onChange db d e.1 e.2.1 e.2.2).versions = db.versions :=
      onChange_versions_suppressed db d e.1 e.2.1 e.2.2 v hv hd
        (hall e (by simp))
    have hv2 : v ∈ (onChange db d e.1 e.2.1 e.2.2).versions := by
      rw [h1]; exact hv
    calc (applyEdits db d (e :: rest)).versions
        = (applyEdits (onChange db d e.1 e.2.1 e.2.2) d rest).versions := rfl
      _ = (onChange db d e.1 e.2.1 e.2.2).versions :=
          ih (fun x hx => hall x (by simp [hx])) _ hv2
      _ = db.versions := h1

/-- Evaluation of a successful restore: the overwritten document row, the
appended version row, and the effect trace in issue order. -/
theorem restoreVersion_ok_eq (st : SystemState) (id : String) (vid : Nat)
    (now : Int) (v : VersionRow) (hv : findVersion st.db vid id = some v) :
    restoreVersion st id vid now = .ok
      (⟨⟨st.db.documents.map (fun r =>
            if r.id == id then
              { r with current_text := v.text, ystate := none,
                       updated_at := now }
            else r),
         st.db.versions ++ [⟨st.db.nextVid, id, v.text, now⟩],
         st.db.nextVid + 1⟩,
        st.sessions⟩,
       [.dbWriteDoc id v.text none, .dbAppendVersion id v.text,
        .ssePublish id "restore" v.text]) := by
  unfold restoreVersion
  rw [hv]

/-- The head of `dropWhile p` never satisfies `p`. -/
theorem head?_dropWhile_not {α : Type} (p : α → Bool) (l : List α) :
    ∀ c, (l.dropWhile p).head? = some c → p c = false := by
  induction l with
  | nil => intro c h; simp [List.dropWhile] at h
  | cons a t ih =>
    intro c h
    by_cases hp : p a = true
    · rw [List.dropWhile_cons_of_pos hp] at h
      exact ih c h
    · rw [List.dropWhile_cons_of_neg hp] at h
      simp only [List.head?_cons, Option.some_inj] at h
      subst h
      simpa using hp

/-- `dropWhile` keeps the last element when its result is non-empty. -/
theorem getLast?_dropWhile_of_ne_nil {α : Type} (p : α → Bool) (l : List α)
    (h : l.dropWhile p ≠ []) : (l.dropWhile p).getLast? = l.getLast? := by
  obtain ⟨t, ht⟩ := List.dropWhile_suffix p (l := l)
  conv_rhs => rw [← ht]
  rw [List.getLast?_append_of_ne_nil _ h]

/-- The first character of a trimmed string is not whitespace. -/
theorem trimChars_head_not_white (l : List Char) (c : Char)
    (h : (trimChars l).head? = some c) : c.isWhitespace = false := by
  unfold trimChars at h
  rw [List.head?_reverse] at h
  have hne : ((l.dropWhile Char.isWhitespace).reverse.dropWhile
      Char.isWhitespace) ≠ [] := by
    intro hnil
    rw [hnil] at h
    simp at h
  rw [getLast?_dropWhile_of_ne_nil _ _ hne, List.getLast?_reverse] at h
  exact head?_dropWhile_not _ _ c h

/-- The last character of a trimmed string is not whitespace. -/
theorem trimChars_getLast_not_white (l : List Char) (c : Char)
    (h : (trimChars l).getLast? = some c) : c.isWhitespace = false := by
  unfold trimChars at h
  rw [List.getLast?_reverse] at h
  exact head?_dropWhile_not _ _ c h

/-! ## Claim C1: restore capture order -/

/-- C1 counterexample: on a document whose pre-restore text is "hello",
restoring the stored empty version produces a trace whose first durable
step is the overwrite (not a version append), and the most recently
appended Version afterwards contains the restored text "", not the
pre-restore text "hello". -/
theorem restore_capture_order_counterexample :
    (findDoc exDb "d").map (fun r => r.current_text) = some "hello"
  ∧ ((restoreVersion exSt "d" 0 1).toOption.bind
        (fun p => p.1.db.versions.getLast?)).map (fun w => w.text) = some ""
  ∧ ((restoreVersion exSt "d" 0 1).toOption.map (fun p => p.2.head?))
      = some (some (.dbWriteDoc "d" "" none))
  ∧ ("" : String) ≠ "hello" := by decide

/-- C1 (amended): a successful restore never captures the pre-restore
text; it first overwrites the document row with the chosen historical
text and only then appends a new Version row that contains that same
restored text, so the most recently appended Version after a restore
holds the restored text. -/
theorem restore_overwrites_then_appends_restored_text
    (st : SystemState) (id : String) (vid : Nat) (now : Int) (v : VersionRow)
    (hv : findVersion st.db vid id = some v) :
    ∃ st1, restoreVersion st id vid now
        = .ok (st1, [.dbWriteDoc id v.text none, .dbAppendVersion id v.text,
                     .ssePublish id "restore" v.text])
      ∧ st1.db.versions = st.db.versions ++ [⟨st.db.nextVid, id, v.text, now⟩]
      ∧ (st1.db.versions.getLast?).map (fun w => w.text) = some v.text := by
  refine ⟨_, restoreVersion_ok_eq st id vid now v hv, rfl, ?_⟩
  simp

/-- C1 witness: the amended restore behaviour at the concrete store
`exSt`. -/
theorem restore_overwrites_then_appends_restored_text_witness :
    ∃ st1, restoreVersion exSt "d" 0 1
        = .ok (st1, [.dbWriteDoc "d" "" none, .dbAppendVersion "d" "",
                     .ssePublish "d" "restore" ""])
      ∧ st1.db.versions = exDb.versions ++ [⟨1, "d", "", 1⟩]
      ∧ (st1.db.versions.getLast?).map (fun w => w.text) = some "" :=
  restore_overwrites_then_appends_restored_text exSt "d" 0 1 ⟨0, "d", "", 0⟩
    (by decide)

/-! ## Claim C2: restore and the live replica -/

/-- C2 counterexample: with a live session holding "abc", restoring the
empty version leaves the live replica's text "abc" untouched — no
delete-plus-insert full-content replace is performed on it — while the
durable text becomes "". -/
theorem restore_replica_replace_counterexample :
    (restoreVersion exSt "d" 0 1).toOption.map (fun p => p.1.sessions)
      = some [("d", "abc")]
  ∧ (restoreVersion exSt "d" 0 1).toOption.map
        (fun p => (findDoc p.1.db "d").map (fun r => r.current_text))
      = some (some "")
  ∧ ("abc" : String) ≠ "" := by decide

/-- C2 (amended): a restore performs no mutation of any live replica:
the session table is returned unchanged.  Convergence of viewers is
instead attempted through the notification channel: the handler publishes
a `restore` event carrying the restored text, and a client receiving it
resets its editor content to exactly that text. -/
theorem restore_no_replica_mutation
    (st : SystemState) (id : String) (vid : Nat) (now : Int) (v : VersionRow)
    (hv : findVersion st.db vid id = some v) :
    ∃ st1 fx, restoreVersion st id vid now = .ok (st1, fx)
      ∧ st1.sessions = st.sessions
      ∧ Effect.ssePublish id "restore" v.text ∈ fx
      ∧ ∀ cur, clientOnRestore cur v.text = v.text := by
  refine ⟨_, _, restoreVersion_ok_eq st id vid now v hv, rfl, by simp, ?_⟩
  intro cur
  by_cases h : cur = v.text <;> simp [clientOnRestore, h]

/-- C2 witness: the amended restore behaviour at the concrete live state
`exSt`. -/
theorem restore_no_replica_mutation_witness :
    ∃ st1 fx, restoreVersion exSt "d" 0 1 = .ok (st1, fx)
      ∧ st1.sessions = exSt.sessions
      ∧ Effect.ssePublish "d" "restore" "" ∈ fx
      ∧ ∀ cur, clientOnRestore cur "" = "" :=
  restore_no_replica_mutation exSt "d" 0 1 ⟨0, "d", "", 0⟩ (by decide)

/-! ## Claim C3: restore round-trip -/

/-- C3 counterexample: pre-restore text "hello"; restoring version 0
(text "") auto-appends version 1, which also holds "" — so restoring
version 1 right after yields "", not the pre-restore text "hello". -/
theorem restore_roundtrip_counterexample :
    (findDoc exDb "d").map (fun r => r.current_text) = some "hello"
  ∧ ((restoreVersion exSt "d" 0 1).toOption.map
        (fun p => p.1.db.versions.getLast?.map (fun w => w.vid)))
      = some (some 1)
  ∧ ((restoreVersion exSt "d" 0 1).toOption.bind
        (fun p => (restoreVersion p.1 "d" 1 2).toOption)).map
          (fun p => (findDoc p.1.db "d").map (fun r => r.current_text))
      = some (some "")
  ∧ ("" : String) ≠ "hello" := by decide

/-- A restore-style point update of the documents table, seen through the
point read `findDoc`. -/
theorem findDoc_map_update (db : DB) (vs : List VersionRow) (nv : Nat)
    (id text : String) (ys : Option (List Nat)) (now : Int) :
    findDoc ⟨db.documents.map (fun r =>
        if r.id == id then
          { r with current_text := text, ystate := ys, updated_at := now }
        else r), vs, nv⟩ id
      = (findDoc db id).map (fun r =>
          { r with current_text := text, ystate := ys, updated_at := now }) :=
  find?_map_ite db.documents id _ (fun _ => rfl)

/-- C3 (amended): restoring version `v` and then immediately restoring the
Version auto-appended by that restore leaves the document's materialized
text at `v`'s text — the round trip is idempotent on the restored text and
does not return to the pre-restore text (unless that text already equalled
`v`'s).  The freshness hypothesis says stored version ids are below the
id-generator counter, which every reachable store satisfies. -/
theorem restore_roundtrip_yields_restored_text
    (st : SystemState) (id : String) (vid : Nat) (now1 now2 : Int)
    (v : VersionRow) (hv : findVersion st.db vid id = some v)
    (hfresh : ∀ w ∈ st.db.versions, w.vid < st.db.nextVid) :
    ∃ st1 fx1 st2 fx2,
      restoreVersion st id vid now1 = .ok (st1, fx1)
      ∧ st1.db.versions.getLast? = some ⟨st.db.nextVid, id, v.text, now1⟩
      ∧ restoreVersion st1 id st.db.nextVid now2 = .ok (st2, fx2)
      ∧ (findDoc st2.db id).map (fun r => r.current_text)
          = (findDoc st.db id).map (fun _ => v.text) := by
  have h1 := restoreVersion_ok_eq st id vid now1 v hv
  have hfront : ∀ w ∈ st.db.versions,
      ¬ ((w.vid == st.db.nextVid && w.document_id == id) = true) := by
    intro w hw
    have hlt := hfresh w hw
    simp only [Bool.and_eq_true, beq_iff_eq]
    rintro ⟨hvid, -⟩
    omega
  have hfind : findVersion
      (⟨⟨st.db.documents.map (fun r =>
          if r.id == id then
            { r with current_text := v.text, ystate := none,
                     updated_at := now1 }
          else r),
        st.db.versions ++ [⟨st.db.nextVid, id, v.text, now1⟩],
        st.db.nextVid + 1⟩, st.sessions⟩ : SystemState).db
      st.db.nextVid id = some ⟨st.db.nextVid, id, v.text, now1⟩ := by
    show List.find? _ (st.db.versions ++ [⟨st.db.nextVid, id, v.text, now1⟩])
        = some ⟨st.db.nextVid, id, v.text, now1⟩
    rw [find?_append_of_forall_neg _ _ _ hfront]
    exact List.find?_cons_of_pos _ (by simp)
  have h2 := restoreVersion_ok_eq _ id st.db.nextVid now2 _ hfind
  refine ⟨_, _, _, _, h1, by simp, h2, ?_⟩
  rw [findDoc_map_update, findDoc_map_update]
  cases findDoc st.db id <;> simp

/-- C3 witness: the round trip at the concrete store `exSt`: restore
version 0, then restore the auto-appended version 1; the document ends at
version 0's text "". -/
theorem restore_roundtrip_yields_restored_text_witness :
    ∃ st1 fx1 st2 fx2,
      restoreVersion exSt "d" 0 1 = .ok (st1, fx1)
      ∧ st1.db.versions.getLast? = some ⟨1, "d", "", 1⟩
      ∧ restoreVersion st1 "d" 1 2 = .ok (st2, fx2)
      ∧ (findDoc st2.db "d").map (fun r => r.current_text)
          = (findDoc exDb "d").map (fun _ => "") :=
  restore_roundtrip_yields_restored_text exSt "d" 0 1 2 ⟨0, "d", "", 0⟩
    (by decide) (by decide)

/-! ## Claim C4: corrupt replica state on session load -/

/-- C4 counterexample: a session acquisition on a row whose stored replica
state is present but fails to deserialize, with non-empty materialized
text "hi", surfaces an error — it does not fall back to backfilling from
the materialized text. -/
theorem corrupt_ystate_fallback_counterexample :
    (onLoadDocument (fun _ => none) corruptDb "d" 5).toOption = none
  ∧ (findDoc corruptDb "d").map (fun r => r.current_text) = some "hi"
  ∧ (findDoc corruptDb "d").map (fun r => r.ystate) = some (some [1, 2, 3])
  ∧ ("hi" : String) ≠ "" := by decide

/-- C4 (amended): when the stored replica state is present, non-empty and
fails to deserialize, `onLoadDocument` fails the acquisition with the
propagated error — there is no fallback to the materialized text, whatever
it holds. -/
theorem corrupt_ystate_errors (decode : List Nat → Option String) (db : DB)
    (d : String) (now : Int) (row : DocRow) (bs : List Nat)
    (h1 : findDoc db d = some row) (h2 : row.ystate = some bs)
    (h3 : 0 < bs.length) (h4 : decode bs = none) :
    onLoadDocument decode db d now = .error () := by
  unfold onLoadDocument
  rw [h1]
  dsimp only
  rw [h2]
  dsimp only
  rw [if_pos (by omega), h4]

/-- C4 witness: the amended failure behaviour at the concrete corrupt
store. -/
theorem corrupt_ystate_errors_witness :
    onLoadDocument (fun _ => none) corruptDb "d" 7 = .error () :=
  corrupt_ystate_errors (fun _ => none) corruptDb "d" 7
    ⟨"d", "hi", some [1, 2, 3], "", 0, 0⟩ [1, 2, 3] (by decide) rfl
    (by decide) rfl

/-! ## Claim C5: migration schema versus the replica-state column -/

/-- C5: the migration creates the `documents` table with exactly the
columns id, created_at, updated_at, current_text and title — it never
creates the `ystate` replica-state column, while both the session-load
`SELECT` and the merge-event `UPDATE` reference `ystate`; those queries
therefore address a column the migration did not create. -/
theorem migration_missing_ystate_column :
    "ystate" ∈ onLoadDocumentSelectsColumns
  ∧ "ystate" ∈ onChangeUpdatesColumns
  ∧ "ystate" ∉ migrateDocumentsColumns
  ∧ "current_text" ∈ migrateDocumentsColumns
  ∧ migrateDocumentsColumns
      = ["id", "created_at", "updated_at", "current_text", "title"] := by
  decide

/-! ## Claim C6: persistence policy and snapshot debounce -/

/-- C6: every merge event unconditionally writes the materialized text and
the serialized replica state (and bumps updated_at) in the document row;
a burst of edits whose first edit passes the debounce gate (no Version for
the document within the trailing 30 seconds) and whose remaining edits
fall within 30 seconds of the first appends exactly one new Version; and
an edit 31 seconds after the latest snapshot appends exactly one more. -/
theorem onChange_snapshot_debounce :
    (∀ db d text u now r, findDoc db d = some r →
        findDoc (onChange db d text u now) d
          = some { r with current_text := text, ystate := some u,
                          updated_at := now })
  ∧ (∀ db d (e0 : String × List Nat × Int)
        (rest : List (String × List Nat × Int)),
        recentVersionExists db d e0.2.2 = false →
        (∀ e ∈ rest, e.2.2 < e0.2.2 + 30) →
        (applyEdits db d (e0 :: rest)).versions
          = db.versions ++ [⟨db.nextVid, d, e0.1, e0.2.2⟩])
  ∧ (∀ db d text u s, (∀ v ∈ versionsFor db d, v.created_at ≤ s) →
        (onChange db d text u (s + 31)).versions
          = db.versions ++ [⟨db.nextVid, d, text, s + 31⟩]) := by
  refine ⟨?_, ?_, ?_⟩
  · intro db d text u now r hr
    unfold findDoc at hr ⊢
    rw [onChange_documents_eq,
      find?_map_ite db.documents d
        (fun r =>
          { r with current_text := text, ystate := some u, updated_at := now })
        (fun _ => rfl),
      hr]
    rfl
  · intro db d e0 rest hgate hall
    have hv1 : (onChange db d e0.1 e0.2.1 e0.2.2).versions
        = db.versions ++ [⟨db.nextVid, d, e0.1, e0.2.2⟩] := by
      rw [onChange_versions_eq, if_neg (by simp [hgate])]
    have hmem : (⟨db.nextVid, d, e0.1, e0.2.2⟩ : VersionRow)
        ∈ (onChange db d e0.1 e0.2.1 e0.2.2).versions := by
      rw [hv1]; simp
    calc (applyEdits db d (e0 :: rest)).versions
        = (applyEdits (onChange db d e0.1 e0.2.1 e0.2.2) d rest).versions :=
          rfl
      _ = (onChange db d e0.1 e0.2.1 e0.2.2).versions :=
          applyEdits_versions_suppressed d ⟨db.nextVid, d, e0.1, e0.2.2⟩ rfl
            rest hall _ hmem
      _ = db.versions ++ [⟨db.nextVid, d, e0.1, e0.2.2⟩] := hv1
  · intro db d text u s hs
    have hgate : recentVersionExists db d (s + 31) = false := by
      apply recentVersionExists_false
      intro v hv hd
      have hvs : v ∈ versionsFor db d := by
        simp [versionsFor, List.mem_filter, hv, hd]
      have := hs v hvs
      omega
    rw [onChange_versions_eq, if_neg (by simp [hgate])]

/-- C6 witness: full-state write of a single event; a three-edit burst at
times 100, 110 and 129 on a fresh document producing exactly one snapshot;
and a later edit at time 131 = 100 + 31 producing exactly one more. -/
theorem onChange_snapshot_debounce_witness :
    (findDoc (onChange burstDb0 "d" "x" [9] 50) "d"
        = some ⟨"d", "x", some [9], "", 0, 50⟩)
  ∧ ((applyEdits burstDb0 "d"
        [("a", [1], 100), ("ab", [2], 110), ("abc", [3], 129)]).versions
        = burstDb0.versions ++ [⟨0, "d", "a", 100⟩])
  ∧ ((onChange burstDb1 "d" "abcd" [4] 131).versions
        = burstDb1.versions ++ [⟨1, "d", "abcd", 131⟩]) :=
  ⟨onChange_snapshot_debounce.1 burstDb0 "d" "x" [9] 50
      ⟨"d", "", none, "", 0, 0⟩ (by decide),
   onChange_snapshot_debounce.2.1 burstDb0 "d" ("a", [1], 100)
      [("ab", [2], 110), ("abc", [3], 129)] (by decide) (by decide),
   onChange_snapshot_debounce.2.2 burstDb1 "d" "abcd" [4] 100 (by decide)⟩

/-! ## Claim C7: title length validation -/

/-- C7 counterexample: the admin form title route performs no length
check: posting the specification's 600-character example title writes it
and publishes a `title` notification instead of rejecting before any
write. -/
theorem admin_title_length_counterexample :
    strLen longTitle > 512
  ∧ (adminSetTitle titleDb "d" (some longTitle) 5).2
      = [.dbWriteTitle "d" (normalizeTitle (some longTitle)),
         .ssePublish "d" "title" (normalizeTitle (some longTitle))]
  ∧ (adminSetTitle titleDb "d" (some longTitle) 5).2 ≠ [] := by
  refine ⟨?_, rfl, by simp [adminSetTitle]⟩
  show (List.replicate 600 'a').length > 512
  rw [List.length_replicate]
  decide

/-- C7 (amended): only the JSON API route validates the bound: a trimmed
title longer than 512 characters is rejected there with a validation
error before any read or write and with no notification; the admin form
route applies no length bound and always issues the title write and the
notification, whatever the length. -/
theorem title_validation_api_only :
    (∀ db id t now, strLen (normalizeTitle t) > 512 →
        apiSetTitle db id t now = (.badRequest, db, []))
  ∧ (∀ db id t now, (adminSetTitle db id t now).2
        = [.dbWriteTitle id (normalizeTitle t),
           .ssePublish id "title" (normalizeTitle t)]) := by
  constructor
  · intro db id t now h
    unfold apiSetTitle
    dsimp only
    rw [if_pos h]
  · intro db id t now
    rfl

set_option maxRecDepth 8000 in
/-- C7 witness: the API route rejects the 600-character title with no
side effects on the concrete store; the admin route writes and notifies. -/
theorem title_validation_api_only_witness :
    apiSetTitle titleDb "d" (some longTitle) 5 = (.badRequest, titleDb, [])
  ∧ (adminSetTitle titleDb "d" (some "  x ") 5).2
      = [.dbWriteTitle "d" (normalizeTitle (some "  x ")),
         .ssePublish "d" "title" (normalizeTitle (some "  x "))] :=
  ⟨title_validation_api_only.1 titleDb "d" (some longTitle) 5 (by decide),
   title_validation_api_only.2 titleDb "d" (some "  x ") 5⟩

/-! ## Claim C8: session acquisition paths -/

/-- C8 counterexample: a row whose stored replica state is *present* but
zero-length is not reconstructed from those bytes (which here decode to
the empty replica): the code backfills from the non-empty materialized
text "hi" instead. -/
theorem onLoad_present_empty_ystate_counterexample :
    (findDoc emptyStateDb "d").map (fun r => r.ystate) = some (some [])
  ∧ (onLoadDocument (fun _ => some "") emptyStateDb "d" 5).toOption
      = some (emptyStateDb, "hi")
  ∧ (fun _ : List Nat => (some "" : Option String)) [] = some ""
  ∧ ("hi" : String) ≠ "" := by decide

/-- C8 (amended): on acquisition, a present *and non-empty* stored
replica state that deserializes is used to reconstruct the replica; a
missing or zero-length stored state with non-empty materialized text
leads to the backfill path seeding the replica with exactly that text;
and a missing document row is created with empty text as a side effect of
the acquisition. -/
theorem onLoad_acquisition_paths :
    (∀ decode db d now row bs t, findDoc db d = some row →
        row.ystate = some bs → 0 < bs.length → decode bs = some t →
        onLoadDocument decode db d now = .ok (db, t))
  ∧ (∀ decode db d now row, findDoc db d = some row →
        (row.ystate = none ∨ row.ystate = some []) →
        row.current_text ≠ "" →
        onLoadDocument decode db d now = .ok (db, row.current_text))
  ∧ (∀ decode db d now, findDoc db d = none →
        onLoadDocument decode db d now
          = .ok ({ db with documents :=
              db.documents ++ [⟨d, "", none, "", now, now⟩] }, "")) := by
  refine ⟨?_, ?_, ?_⟩
  · intro decode db d now row bs t h1 h2 h3 h4
    unfold onLoadDocument
    rw [h1]
    dsimp only
    rw [h2]
    dsimp only
    rw [if_pos (by omega), h4]
  · intro decode db d now row h1 h2 h3
    unfold onLoadDocument
    rw [h1]
    dsimp only
    rcases h2 with h2 | h2
    · rw [h2]
      dsimp only
      rw [if_pos h3]
    · rw [h2]
      dsimp only
      rw [if_neg (by simp), if_pos h3]
  · intro decode db d now h1
    unfold onLoadDocument
    rw [h1]

/-- C8 witness: reconstruction from valid bytes, backfill past an empty
stored state, and row creation on a missing document, each at a concrete
store. -/
theorem onLoad_acquisition_paths_witness :
    onLoadDocument (fun _ => some "recon") corruptDb "d" 5
        = .ok (corruptDb, "recon")
  ∧ onLoadDocument (fun _ => some "") emptyStateDb "d" 5
        = .ok (emptyStateDb, "hi")
  ∧ onLoadDocument (fun _ => none) ⟨[], [], 0⟩ "d" 5
        = .ok (⟨[⟨"d", "", none, "", 5, 5⟩], [], 0⟩, "") :=
  ⟨onLoad_acquisition_paths.1 (fun _ => some "recon") corruptDb "d" 5
      ⟨"d", "hi", some [1, 2, 3], "", 0, 0⟩ [1, 2, 3] "recon" (by decide) rfl
      (by decide) rfl,
   onLoad_acquisition_paths.2.1 (fun _ => some "") emptyStateDb "d" 5
      ⟨"d", "hi", some [], "", 0, 0⟩ (by decide) (Or.inr rfl) (by decide),
   onLoad_acquisition_paths.2.2 (fun _ => none) ⟨[], [], 0⟩ "d" 5 rfl⟩

/-! ## Claim C9: SSE fan-out delivery -/

/-- C9 counterexample: publishing to document "a", whose sink 0 has a
failing connection, delivers to the remaining sink 1 — but it leaves the
subscriber set, failing sink included, exactly as it was: `publish` never
drops the failing sink. -/
theorem publish_drop_sink_counterexample :
    (publish exCh "a" "restore" "x").1 = [(1, ssePayload "restore" "x")]
  ∧ (publish exCh "a" "restore" "x").2 = exCh
  ∧ channelsGet ((publish exCh "a" "restore" "x").2) "a"
      = some [⟨0, false⟩, ⟨1, true⟩] := by decide

/-- C9 (amended): `publish` delivers the payload to exactly the
succeeding sinks of the target document — every sink whose write succeeds
receives it, every delivery goes to a registered sink of that document,
and a document with no entry gets no delivery — a failing sink does not
block the others; but `publish` leaves the channels map (including the
failing sink's registration) unchanged: a sink is removed only by the
close handler, which deletes it and removes the document's entry when its
set becomes empty. -/
theorem publish_fanout_behavior :
    (∀ ch docId ev data set, channelsGet ch docId = some set →
        (∀ c ∈ set, c.writeOk = true →
            (c.sid, ssePayload ev data) ∈ (publish ch docId ev data).1)
      ∧ (∀ x ∈ (publish ch docId ev data).1,
            ∃ c ∈ set, c.sid = x.1 ∧ x.2 = ssePayload ev data))
  ∧ (∀ ch docId ev data, (publish ch docId ev data).2 = ch)
  ∧ (∀ ch docId ev data, channelsGet ch docId = none →
        (publish ch docId ev data).1 = [])
  ∧ (∀ ch docId sid set,
        channelsGet (closeSink ch docId sid) docId = some set →
        ∀ c ∈ set, c.sid ≠ sid) := by
  refine ⟨?_, ?_, ?_, ?_⟩
  · intro ch docId ev data set h
    unfold publish
    rw [h]
    dsimp only
    constructor
    · intro c hc hw
      exact List.mem_filterMap.mpr ⟨c, hc, by simp [hw]⟩
    · intro x hx
      obtain ⟨c, hc, hf⟩ := List.mem_filterMap.mp hx
      by_cases hw : c.writeOk = true
      · rw [if_pos hw] at hf
        cases hf
        exact ⟨c, hc, rfl, rfl⟩
      · rw [if_neg hw] at hf
        cases hf
  · intro ch docId ev data
    unfold publish
    split <;> rfl
  · intro ch docId ev data h
    unfold publish
    rw [h]
  · intro ch docId sid set h c hc
    unfold channelsGet at h
    obtain ⟨p, hp, hps⟩ := Option.map_eq_some'.mp h
    have hpmem : p ∈ closeSink ch docId sid := List.mem_of_find?_eq_some hp
    have hpq : (p.1 == docId) = true :=
      List.find?_some (p := fun q : String × List Sink => q.1 == docId) hp
    obtain ⟨p0, _, hg⟩ := List.mem_filterMap.mp hpmem
    by_cases hb : (p0.1 == docId) = true
    · rw [if_pos hb] at hg
      dsimp only at hg
      by_cases he : (List.filter (fun c => c.sid ≠ sid) p0.2).isEmpty = true
      · rw [if_pos he] at hg
        cases hg
      · rw [if_neg he] at hg
        cases hg
        have := List.mem_filter.mp (hps ▸ hc)
        simpa using this.2
    · rw [if_neg hb] at hg
      cases hg
      exact absurd hpq hb

/-- C9 witness: the amended fan-out behaviour at the concrete channels
`exCh`: deliveries to document "a", channels unchanged, no delivery for
the unknown document "c", and sink 0 gone after its close handler runs. -/
theorem publish_fanout_behavior_witness :
    ((∀ c ∈ [(⟨0, false⟩ : Sink), ⟨1, true⟩], c.writeOk = true →
        (c.sid, ssePayload "restore" "x") ∈ (publish exCh "a" "restore" "x").1)
      ∧ (∀ x ∈ (publish exCh "a" "restore" "x").1,
            ∃ c ∈ [(⟨0, false⟩ : Sink), ⟨1, true⟩],
              c.sid = x.1 ∧ x.2 = ssePayload "restore" "x"))
  ∧ (publish exCh "a" "restore" "x").2 = exCh
  ∧ (publish exCh "c" "restore" "x").1 = []
  ∧ (∀ c ∈ [(⟨1, true⟩ : Sink)], c.sid ≠ 0) :=
  ⟨publish_fanout_behavior.1 exCh "a" "restore" "x"
      [⟨0, false⟩, ⟨1, true⟩] (by decide),
   publish_fanout_behavior.2.1 exCh "a" "restore" "x",
   publish_fanout_behavior.2.2.1 exCh "c" "restore" "x" (by decide),
   publish_fanout_behavior.2.2.2 exCh "a" 0 [⟨1, true⟩] (by decide)⟩

/-! ## Claim C10: title normalization on both routes -/

/-- C10: both title routes store and publish the normalized title: the
supplied value trimmed of leading and trailing whitespace (the normalized
value begins and ends with a non-whitespace character), with a missing or
null title coerced to the empty string — so the persisted title can
differ from the caller's input. -/
theorem title_trim_normalization :
    (∀ db id t now r, findDoc db id = some r →
        findDoc (adminSetTitle db id t now).1 id
          = some { r with title := normalizeTitle t, updated_at := now }
      ∧ (adminSetTitle db id t now).2
          = [.dbWriteTitle id (normalizeTitle t),
             .ssePublish id "title" (normalizeTitle t)])
  ∧ (∀ db id t now r, findDoc db id = some r →
        strLen (normalizeTitle t) ≤ 512 →
        ∃ db2, apiSetTitle db id t now
            = (.ok, db2,
               [.dbWriteTitle id (normalizeTitle t),
                .ssePublish id "title" (normalizeTitle t)])
          ∧ findDoc db2 id
              = some { r with title := normalizeTitle t, updated_at := now })
  ∧ normalizeTitle none = ""
  ∧ (∀ s c, (normalizeTitle (some s)).data.head? = some c →
        c.isWhitespace = false)
  ∧ (∀ s c, (normalizeTitle (some s)).data.getLast? = some c →
        c.isWhitespace = false) := by
  refine ⟨?_, ?_, by decide, ?_, ?_⟩
  · intro db id t now r hr
    constructor
    · unfold adminSetTitle
      dsimp only
      unfold findDoc at hr ⊢
      rw [find?_map_ite db.documents id
          (fun r => { r with title := normalizeTitle t, updated_at := now })
          (fun _ => rfl), hr]
      rfl
    · rfl
  · intro db id t now r hr h512
    unfold apiSetTitle
    dsimp only
    rw [if_neg (by omega), hr]
    dsimp only
    refine ⟨_, rfl, ?_⟩
    unfold findDoc at hr ⊢
    rw [find?_map_ite db.documents id
        (fun r => { r with title := normalizeTitle t, updated_at := now })
        (fun _ => rfl), hr]
    rfl
  · intro s c h
    exact trimChars_head_not_white s.data c h
  · intro s c h
    exact trimChars_getLast_not_white s.data c h

/-- C10 witness: both routes at the concrete store with the title
"  New Title  " (stored and published as "New Title"), plus the trim
facts at concrete inputs. -/
theorem title_trim_normalization_witness :
    (findDoc (adminSetTitle titleDb "d" (some "  New Title  ") 5).1 "d"
        = some ⟨"d", "", none, normalizeTitle (some "  New Title  "), 0, 5⟩
      ∧ (adminSetTitle titleDb "d" (some "  New Title  ") 5).2
          = [.dbWriteTitle "d" (normalizeTitle (some "  New Title  ")),
             .ssePublish "d" "title" (normalizeTitle (some "  New Title  "))])
  ∧ (∃ db2, apiSetTitle titleDb "d" (some "  New Title  ") 5
        = (.ok, db2,
           [.dbWriteTitle "d" (normalizeTitle (some "  New Title  ")),
            .ssePublish "d" "title" (normalizeTitle (some "  New Title  "))])
      ∧ findDoc db2 "d"
          = some ⟨"d", "", none, normalizeTitle (some "  New Title  "), 0, 5⟩)
  ∧ ('N'.isWhitespace = false) :=
  ⟨title_trim_normalization.1 titleDb "d" (some "  New Title  ") 5
      ⟨"d", "", none, "old", 0, 0⟩ (by decide),
   title_trim_normalization.2.1 titleDb "d" (some "  New Title  ") 5
      ⟨"d", "", none, "old", 0, 0⟩ (by decide) (by decide),
   title_trim_normalization.2.2.2.1 "  New Title  " 'N' (by decide)⟩

end WriteCollab
